import Mathlib

/-!
# Verification of the StockAI Analysis Cache & Quota Engine

Shallow embedding of the backend services of the StockAI repository:

* `app/services/search_limit.py`   — per-user daily search quota (`SearchLimitService`)
* `app/services/stock_cache.py`    — per-user/per-symbol/per-day analysis cache
* `app/services/technical_indicators.py` — RSI / EMA / MACD numeric kernels
* `app/api/endpoints/search.py`    — orchestrator (`analyze_stock`), response
  filtering (`filter_analysis_by_type`) and the rule-based scorer
  (`get_rule_based_analysis`)

Modelling conventions:

* Machine floats are modelled by `ℚ` (all the claims below concern exact
  identities that hold equally for IEEE arithmetic on the inputs used).
* `datetime.utcnow()` is split into a UTC day number (`ℕ`) and, where the
  code stores a full timestamp, an abstract timestamp (`ℕ`); only the date
  part is ever compared by the code under study.
* The SQLAlchemy session (`db.commit()`) only persists the mutated `User`
  row; state is passed explicitly, each service call returns the new row.
* Redis is modelled as an association list keyed by the same data the code
  serialises into its string keys (the string construction
  `"stock_data:user:{id}:symbol:{SYM}:date:{date}"` is injective in the
  triple, so a structured key is a faithful model); `setex`'s TTL (next UTC
  midnight) is not modelled separately because every key embeds the UTC day
  and lookups always recompute today's key, so entries of another day are
  unreachable anyway.
* `json.dumps`/`json.loads` round-trip is the identity on the payload.
-/

/-! ## Quota tracker: `app/services/search_limit.py` -/

/-- Source constant `SearchLimitService.DAILY_LIMIT = 10`. -/
def DAILY_LIMIT : ℤ := 10

/-- The columns of the `users` table the quota service touches
(`app/models/user.py`): `daily_search_count` (nullable in the ORM object
before initialisation, hence `Option`) and `last_search_reset`, of which the
code only ever uses `.date()`, modelled as a UTC day number. -/
structure User where
  daily_search_count : Option ℤ
  last_search_reset : Option ℕ
deriving DecidableEq

/-- The `if user.daily_search_count is None: user.daily_search_count = 0`
prologue shared by `check_and_increment_search_count` and
`get_user_search_status`. -/
def initSearchCount (u : User) : User :=
  if u.daily_search_count = none then { u with daily_search_count := some 0 } else u

/-- Source `SearchLimitService._reset_daily_count_if_needed`:
`last_reset = user.last_search_reset or datetime.utcnow()`; if
`now.date() > last_reset.date()` then reset the count to `0` and stamp
`last_search_reset = now`. -/
def _reset_daily_count_if_needed (today : ℕ) (u : User) : User :=
  let last_reset := u.last_search_reset.getD today
  if today > last_reset then
    { u with daily_search_count := some 0, last_search_reset := some today }
  else u

/-- The f-string returned when the daily limit is reached. -/
def limitMessage : String :=
  "You have reached your daily limit of " ++ toString DAILY_LIMIT ++
    " stock searches. Please try again tomorrow."

/-- The f-string returned on a successful search. -/
def successMessage (remaining : ℤ) : String :=
  "Search successful! You have " ++ toString remaining ++ " searches remaining today."

/-- Source `SearchLimitService.check_and_increment_search_count`: returns
`(can_search, message, remaining_searches)` together with the mutated user
row. -/
def check_and_increment_search_count (today : ℕ) (user : User) :
    (Bool × String × ℤ) × User :=
  let u1 := initSearchCount user
  let u2 := _reset_daily_count_if_needed today u1
  let c := u2.daily_search_count.getD 0
  if c ≥ DAILY_LIMIT then
    ((false, limitMessage, 0), u2)
  else
    let u3 := { u2 with daily_search_count := some (c + 1) }
    ((true, successMessage (DAILY_LIMIT - (c + 1)), DAILY_LIMIT - (c + 1)), u3)

/-- The dict returned by `SearchLimitService.get_user_search_status`. -/
structure SearchStatus where
  daily_limit : ℤ
  used_today : ℤ
  remaining_today : ℤ
  can_search : Bool
  last_reset : Option ℕ
deriving DecidableEq

/-- Source `SearchLimitService.get_user_search_status`: read-only except for the
lazy initialisation / daily reset, returns the status dict and the (possibly
reset) user row. -/
def get_user_search_status (today : ℕ) (user : User) : SearchStatus × User :=
  let u1 := initSearchCount user
  let u2 := _reset_daily_count_if_needed today u1
  let used := u2.daily_search_count.getD 0
  let remaining := max 0 (DAILY_LIMIT - used)
  ({ daily_limit := DAILY_LIMIT
     used_today := used
     remaining_today := remaining
     can_search := decide (remaining > 0)
     last_reset := u2.last_search_reset }, u2)

/-- Source `SearchLimitService.reset_user_search_count` (admin reset): force
`count = 0`, stamp `last_search_reset = now`, return `True`. -/
def reset_user_search_count (today : ℕ) (user : User) : Bool × User :=
  (true, { user with daily_search_count := some 0, last_search_reset := some today })

/-- A freshly created user row: the ORM defaults are
`daily_search_count = 0`, `last_search_reset = datetime.utcnow()`
(`app/models/user.py`). -/
def freshUser (d : ℕ) : User :=
  { daily_search_count := some 0, last_search_reset := some d }

/-- State transformer of one `check_and_increment_search_count` call. -/
def quotaStep (today : ℕ) (u : User) : User :=
  (check_and_increment_search_count today u).2

/-- Runs `n` consecutive `check_and_increment_search_count` calls on day `today`. -/
def quotaIter (today : ℕ) : ℕ → User → User
  | 0, u => u
  | n + 1, u => quotaStep today (quotaIter today n u)

/-! ## Analysis cache: `app/services/stock_cache.py` -/

/-- Key of `_get_stock_cache_key`: the code builds
`"stock_data:user:{user_id}:symbol:{symbol.upper()}:date:{date}"`, which is
injective in `(user_id, symbol.upper(), date)`; modelled structurally. -/
structure StockKey where
  user_id : ℕ
  symbol : String
  date : ℕ
deriving DecidableEq

/-- Key of `_get_user_cache_key`:
`"stock_cache:user:{user_id}:date:{date}"`. -/
structure UserKey where
  user_id : ℕ
  date : ℕ
deriving DecidableEq

/-- Source `_get_stock_cache_key(user_id, symbol, date)`: the symbol is uppercased. -/
def _get_stock_cache_key (user_id : ℕ) (symbol : String) (date : ℕ) : StockKey :=
  ⟨user_id, symbol.toUpper, date⟩

/-- Source `_get_user_cache_key(user_id, date)`. -/
def _get_user_cache_key (user_id : ℕ) (date : ℕ) : UserKey :=
  ⟨user_id, date⟩

/-- Redis `GET` over the association-list model (first binding wins). -/
def kvGet [DecidableEq κ] (k : κ) (m : List (κ × α)) : Option α :=
  (m.find? fun p => decide (p.1 = k)).map (·.2)

/-- Redis `SETEX` over the association-list model: the new binding shadows
any older one (overwrite semantics). -/
def kvSet (k : κ) (v : α) (m : List (κ × α)) : List (κ × α) :=
  (k, v) :: m

/-- One element of a user's daily search list: the code stores
`{"symbol": symbol.upper(), "timestamp": utcnow().isoformat(),
"cache_key": cache_key}`. -/
structure SearchEntry where
  symbol : String
  timestamp : ℕ
  cache_key : StockKey
deriving DecidableEq

/-- The slice of Redis the cache service uses.  The two key families live in
disjoint string namespaces (`stock_data:*` versus `stock_cache:*`), so they
are modelled as two maps; `α` is the JSON payload type (`json.dumps` ∘
`json.loads` = id). -/
structure CacheStore (α : Type) where
  stock : List (StockKey × α)
  lists : List (UserKey × List SearchEntry)

/-- An empty Redis instance. -/
def emptyCache : CacheStore α := ⟨[], []⟩

/-- Source `StockCacheService.get_todays_searches`: read the user's daily list,
`[]` on a miss. -/
def get_todays_searches (today : ℕ) (user_id : ℕ) (st : CacheStore α) :
    List SearchEntry :=
  (kvGet (_get_user_cache_key user_id today) st.lists).getD []

/-- Source `StockCacheService.get_cached_analysis`: recompute today's key and read. -/
def get_cached_analysis (today : ℕ) (user_id : ℕ) (symbol : String)
    (st : CacheStore α) : Option α :=
  kvGet (_get_stock_cache_key user_id symbol today) st.stock

/-- Source `StockCacheService.store_stock_analysis`: write the payload under
today's stock key, then append `{symbol.upper(), timestamp, cache_key}` to
the user's daily list unless the symbol is already present there.  Returns
`True` and the new store. -/
def store_stock_analysis (today ts : ℕ) (user_id : ℕ) (symbol : String)
    (analysis_data : α) (st : CacheStore α) : Bool × CacheStore α :=
  let cache_key := _get_stock_cache_key user_id symbol today
  let st1 : CacheStore α := { st with stock := kvSet cache_key analysis_data st.stock }
  let user_cache_key := _get_user_cache_key user_id today
  let search_entry : SearchEntry := ⟨symbol.toUpper, ts, cache_key⟩
  let existing_searches := get_todays_searches today user_id st1
  let symbol_exists := existing_searches.any fun s => decide (s.symbol = symbol.toUpper)
  if symbol_exists then (true, st1)
  else
    (true, { st1 with
      lists := kvSet user_cache_key (existing_searches ++ [search_entry]) st1.lists })

/-! ## Indicator engine: `app/services/technical_indicators.py`

Prices are `List ℚ` (the NumPy arrays of the source, in order). -/

/-- Model of `np.mean` (sum over length; the source never applies it to an empty
array on the paths studied here). -/
def npMean (l : List ℚ) : ℚ := l.sum / l.length

/-- Model of `np.diff`: consecutive differences `prices[i+1] - prices[i]`. -/
def npDiff : List ℚ → List ℚ
  | a :: b :: t => (b - a) :: npDiff (b :: t)
  | _ => []

/-- Wilder's smoothing loop of `calculate_rsi`:
`avg = (avg*(period-1) + new)/period`, folded over the tail of the series.
(The Python loop updates the gain and loss averages in one pass; the two
recurrences are independent, so they are folded separately.) -/
def wilderAvg (period : ℕ) (init : ℚ) (xs : List ℚ) : ℚ :=
  xs.foldl (fun avg x => (avg * ((period : ℚ) - 1) + x) / (period : ℚ)) init

/-- Source line `gains = np.where(deltas > 0, deltas, 0)`. -/
def rsiGains (prices : List ℚ) : List ℚ :=
  (npDiff prices).map fun d => if 0 < d then d else 0

/-- Source line `losses = np.where(deltas < 0, -deltas, 0)`. -/
def rsiLosses (prices : List ℚ) : List ℚ :=
  (npDiff prices).map fun d => if d < 0 then -d else 0

/-- The smoothed average gain of `calculate_rsi`: seeded with
`np.mean(gains[:period])`, then Wilder's recurrence over `gains[period:]`. -/
def rsiAvgGain (prices : List ℚ) (period : ℕ) : ℚ :=
  wilderAvg period (npMean ((rsiGains prices).take period)) ((rsiGains prices).drop period)

/-- The smoothed average loss of `calculate_rsi`. -/
def rsiAvgLoss (prices : List ℚ) (period : ℕ) : ℚ :=
  wilderAvg period (npMean ((rsiLosses prices).take period)) ((rsiLosses prices).drop period)

/-- Source `calculate_rsi(prices, period)`: `50.0` when fewer than `period + 1`
prices; `100.0` when the smoothed average loss is zero; otherwise
`100 - 100/(1 + avgGain/avgLoss)`. -/
def calculate_rsi (prices : List ℚ) (period : ℕ) : ℚ :=
  if prices.length < period + 1 then 50
  else
    let avg_gains := rsiAvgGain prices period
    let avg_losses := rsiAvgLoss prices period
    if avg_losses = 0 then 100
    else 100 - 100 / (1 + avg_gains / avg_losses)

/-- Source `calculate_ema(prices, period)`: mean of everything when the series is
shorter than `period`; otherwise seed with the simple mean of the first
`period` values and iterate `ema = p*mult + ema*(1-mult)`,
`mult = 2/(period+1)`, over the rest. -/
def calculate_ema (prices : List ℚ) (period : ℕ) : ℚ :=
  if prices.length < period then npMean prices
  else
    let multiplier : ℚ := 2 / ((period : ℚ) + 1)
    (prices.drop period).foldl
      (fun ema p => p * multiplier + ema * (1 - multiplier))
      (npMean (prices.take period))

/-- Source `calculate_macd(prices, fast, slow, signal)`: `(0, 0)` when
`len(prices) < slow + signal`; otherwise the MACD line is
`EMA(prices, fast) - EMA(prices, slow)` and the signal line is the EMA (of
period `signal`) of the list built index by index by the Python loop: for
`i ≥ slow - 1` the MACD recomputed on the prefix `prices[:i+1]`, and `0`
for earlier indices.  (`slow - 1 ≤ i` over `ℕ` agrees with Python's
`i >= slow - 1` for every `slow`: for `slow = 0` both sides accept all
`i`.) -/
def calculate_macd (prices : List ℚ) (fast slow signal : ℕ) : ℚ × ℚ :=
  if prices.length < slow + signal then (0, 0)
  else
    let macd_line := calculate_ema prices fast - calculate_ema prices slow
    let macd_values := (List.range prices.length).foldl
      (fun acc i =>
        if slow - 1 ≤ i then
          acc ++ [calculate_ema (prices.take (i + 1)) fast -
                    calculate_ema (prices.take (i + 1)) slow]
        else acc ++ [0])
      []
    (macd_line, calculate_ema macd_values signal)

/-- Modelled from the spec: the signal line as §4.1 of the spec words it —
`EMA(period=signal)` applied to the sequence whose element at *every* index
`i` is `EMA(closes[0..i], fast) - EMA(closes[0..i], slow)`, with no
zero-padding of the first `slow - 1` positions.  Used only to compare the
spec's sentence against `calculate_macd`. -/
def macdSignalPerSpec (prices : List ℚ) (fast slow signal : ℕ) : ℚ :=
  calculate_ema
    ((List.range prices.length).map fun i =>
      calculate_ema (prices.take (i + 1)) fast -
        calculate_ema (prices.take (i + 1)) slow)
    signal

/-! ## Rule-based scorer: `get_rule_based_analysis` in
`app/api/endpoints/search.py` -/

/-- The fields of the `TechnicalData` pydantic model consumed by the
scorer. -/
structure TechnicalData where
  symbol : String
  rsi : ℚ
  macd : ℚ
  macd_signal : ℚ
  current_price : ℚ
  sma_20 : ℚ
  sma_50 : ℚ
  volume_ratio : ℚ
  price_change_1d : ℚ
  price_change_5d : ℚ
deriving DecidableEq

/-- The scorer's local state: `buy_signals`, `sell_signals`,
`total_signals` and the accumulating `key_points` list. -/
structure ScoreState where
  buy_signals : ℚ
  sell_signals : ℚ
  total_signals : ℚ
  key_points : List String
deriving DecidableEq

/-- Initial scorer state: `buy_signals = sell_signals = total_signals = 0`, no key points. -/
def initScore : ScoreState := ⟨0, 0, 0, []⟩

/-- RSI section of the scorer (weight 25%): every branch adds one to
`total_signals`. -/
def rsiStep (td : TechnicalData) (s : ScoreState) : ScoreState :=
  if td.rsi > 70 then
    { s with key_points := s.key_points ++ ["RSI indicates overbought conditions (>70)"]
             sell_signals := s.sell_signals + 1, total_signals := s.total_signals + 1 }
  else if td.rsi < 30 then
    { s with key_points := s.key_points ++ ["RSI indicates oversold conditions (<30)"]
             buy_signals := s.buy_signals + 1, total_signals := s.total_signals + 1 }
  else if td.rsi > 60 then
    { s with key_points := s.key_points ++ ["RSI showing bullish momentum (60-70)"]
             buy_signals := s.buy_signals + 0.5, total_signals := s.total_signals + 1 }
  else if td.rsi < 40 then
    { s with key_points := s.key_points ++ ["RSI showing bearish momentum (30-40)"]
             sell_signals := s.sell_signals + 0.5, total_signals := s.total_signals + 1 }
  else
    { s with key_points := s.key_points ++ ["RSI in neutral range (40-60)"]
             total_signals := s.total_signals + 1 }

/-- MACD section (weight 25%): always adds one to `total_signals`. -/
def macdStep (td : TechnicalData) (s : ScoreState) : ScoreState :=
  if td.macd > td.macd_signal then
    if td.macd > 0 then
      { s with key_points := s.key_points ++ ["MACD bullish and above zero line"]
               buy_signals := s.buy_signals + 1, total_signals := s.total_signals + 1 }
    else
      { s with key_points := s.key_points ++ ["MACD bullish but below zero line"]
               buy_signals := s.buy_signals + 0.5, total_signals := s.total_signals + 1 }
  else
    if td.macd < 0 then
      { s with key_points := s.key_points ++ ["MACD bearish and below zero line"]
               sell_signals := s.sell_signals + 1, total_signals := s.total_signals + 1 }
    else
      { s with key_points := s.key_points ++ ["MACD bearish but above zero line"]
               sell_signals := s.sell_signals + 0.5, total_signals := s.total_signals + 1 }

/-- Moving-average section (weight 20%): always adds one to
`total_signals`. -/
def maStep (td : TechnicalData) (s : ScoreState) : ScoreState :=
  if td.current_price > td.sma_20 ∧ td.sma_20 > td.sma_50 then
    { s with key_points := s.key_points ++ ["Price above both moving averages - strong bullish trend"]
             buy_signals := s.buy_signals + 1, total_signals := s.total_signals + 1 }
  else if td.current_price < td.sma_20 ∧ td.sma_20 < td.sma_50 then
    { s with key_points := s.key_points ++ ["Price below both moving averages - strong bearish trend"]
             sell_signals := s.sell_signals + 1, total_signals := s.total_signals + 1 }
  else if td.current_price > td.sma_20 then
    { s with key_points := s.key_points ++ ["Price above 20-day SMA - short-term bullish"]
             buy_signals := s.buy_signals + 0.5, total_signals := s.total_signals + 1 }
  else
    { s with key_points := s.key_points ++ ["Price below 20-day SMA - short-term bearish"]
             sell_signals := s.sell_signals + 0.5, total_signals := s.total_signals + 1 }

/-- Volume section (weight 15%). In the source, `total_signals += 1` sits
*outside* the inner vote dispatch, at the end of the `volume_ratio > 1.5`
block, and the `volume_ratio < 0.5` branch also executes
`total_signals += 1`; only the middle band `0.5 ≤ ratio ≤ 1.5` leaves the
state untouched. -/
def volumeStep (td : TechnicalData) (s : ScoreState) : ScoreState :=
  if td.volume_ratio > 1.5 then
    let s1 :=
      if s.buy_signals > s.sell_signals then
        { s with key_points := s.key_points ++ ["High volume confirms bullish momentum"]
                 buy_signals := s.buy_signals + 0.5 }
      else if s.sell_signals > s.buy_signals then
        { s with key_points := s.key_points ++ ["High volume confirms bearish momentum"]
                 sell_signals := s.sell_signals + 0.5 }
      else
        { s with key_points := s.key_points ++ ["High volume indicates strong interest"] }
    { s1 with total_signals := s1.total_signals + 1 }
  else if td.volume_ratio < 0.5 then
    { s with key_points := s.key_points ++ ["Low volume suggests weak conviction"]
             total_signals := s.total_signals + 1 }
  else s

/-- Daily-momentum section (weight 15%, first half): only the two extreme
branches touch the state.  (The formatted percentage of the Python message
is rendered with `toString`.) -/
def momentum1Step (td : TechnicalData) (s : ScoreState) : ScoreState :=
  if td.price_change_1d > 2 then
    { s with key_points := s.key_points ++
               ["Strong positive daily momentum (+" ++ toString td.price_change_1d ++ "%)"]
             buy_signals := s.buy_signals + 0.5, total_signals := s.total_signals + 1 }
  else if td.price_change_1d < -2 then
    { s with key_points := s.key_points ++
               ["Strong negative daily momentum (" ++ toString td.price_change_1d ++ "%)"]
             sell_signals := s.sell_signals + 0.5, total_signals := s.total_signals + 1 }
  else s

/-- Weekly-momentum section (weight 15%, second half). -/
def momentum5Step (td : TechnicalData) (s : ScoreState) : ScoreState :=
  if td.price_change_5d > 5 then
    { s with key_points := s.key_points ++
               ["Strong weekly uptrend (+" ++ toString td.price_change_5d ++ "%)"]
             buy_signals := s.buy_signals + 0.5, total_signals := s.total_signals + 1 }
  else if td.price_change_5d < -5 then
    { s with key_points := s.key_points ++
               ["Strong weekly downtrend (" ++ toString td.price_change_5d ++ "%)"]
             sell_signals := s.sell_signals + 0.5, total_signals := s.total_signals + 1 }
  else s

/-- The five scoring sections of `get_rule_based_analysis`, in source
order. -/
def rule_score (td : TechnicalData) : ScoreState :=
  momentum5Step td (momentum1Step td (volumeStep td (maStep td (macdStep td (rsiStep td initScore)))))

/-- The dict produced by `get_rule_based_analysis`. -/
structure RuleAnalysis where
  summary : String
  recommendation : String
  confidence : String
  key_points : List String
deriving DecidableEq

/-- Source `get_rule_based_analysis(tech_data)`: run the five sections, then turn
the buy/sell shares of `total_signals` into a recommendation and a
confidence level. -/
def get_rule_based_analysis (td : TechnicalData) : RuleAnalysis :=
  let s := rule_score td
  let rc : String × String :=
    if s.total_signals > 0 then
      let buyShare := s.buy_signals / s.total_signals
      let sellShare := s.sell_signals / s.total_signals
      if buyShare > 0.6 then ("BUY", if buyShare > 0.8 then "HIGH" else "MEDIUM")
      else if sellShare > 0.6 then ("SELL", if sellShare > 0.8 then "HIGH" else "MEDIUM")
      else ("HOLD", if |buyShare - sellShare| < 0.2 then "LOW" else "MEDIUM")
    else ("HOLD", "MEDIUM")
  { summary := "Technical analysis for " ++ td.symbol ++ ": " ++
      toString s.key_points.length ++ " indicators analyzed. Signal strength: " ++
      toString s.buy_signals ++ " buy vs " ++ toString s.sell_signals ++ " sell signals."
    recommendation := rc.1
    confidence := rc.2
    key_points := s.key_points }

/-! ## Response filtering and the orchestrator:
`app/api/endpoints/search.py` -/

/-- JSON values, enough structure for the payload dictionaries the
endpoint moves around. -/
inductive Json where
  | str : String → Json
  | num : ℚ → Json
  | obj : List (String × Json) → Json

/-- A Python dict with string keys, in insertion order. -/
abbrev JDict : Type := List (String × Json)

/-- Key lookup in a dict (`d[k]` / `k in d`). -/
def dictLookup (k : String) (d : JDict) : Option Json :=
  (d.find? fun p => decide (p.1 = k)).map (·.2)

/-- Source `filter_analysis_by_type(analysis_data, requested_type)`: start from
`{"symbol": ..., "analysis_type": requested_type}`, always copy
`technical_data` when present, copy `ai_analysis` only for requested types
`"ai"`/`"both"`, and `rule_analysis` only for `"technical"`/`"both"`.
(The source reads `analysis_data["symbol"]` unconditionally; the payloads
it receives always carry `"symbol"`, a missing key is modelled by an empty
string.) -/
def filter_analysis_by_type (analysis_data : JDict) (requested_type : String) : JDict :=
  let filtered : JDict :=
    [("symbol", (dictLookup "symbol" analysis_data).getD (Json.str "")),
     ("analysis_type", Json.str requested_type)]
  let filtered : JDict :=
    match dictLookup "technical_data" analysis_data with
    | some v => filtered ++ [("technical_data", v)]
    | none => filtered
  let filtered : JDict :=
    if requested_type = "ai" ∨ requested_type = "both" then
      match dictLookup "ai_analysis" analysis_data with
      | some v => filtered ++ [("ai_analysis", v)]
      | none => filtered
    else filtered
  let filtered : JDict :=
    if requested_type = "technical" ∨ requested_type = "both" then
      match dictLookup "rule_analysis" analysis_data with
      | some v => filtered ++ [("rule_analysis", v)]
      | none => filtered
    else filtered
  filtered

/-- The `AnalysisResponse` pydantic model of the endpoint. -/
structure AnalysisResponse where
  success : Bool
  data : Option JDict := none
  error : Option String := none
  search_limit_info : Option SearchStatus := none

/-- Result of one `analyze_stock` request: the HTTP response, the user row
and the Redis state afterwards, plus two observation flags — whether
`check_and_increment_search_count` ran, and whether the market-data
fetch / indicator computation ran. -/
structure AnalyzeOutcome where
  resp : AnalysisResponse
  user : User
  cache : CacheStore JDict
  quotaInvoked : Bool
  fetchInvoked : Bool

/-- Source `analyze_stock` (the `/analyze` endpoint), for a request by user
`user_id` (row `current_user`) about `symbol` with the given
`analysis_type`.  External collaborators are oracles: `tech_symbol` /
`tech_data` stand for the successfully fetched-and-computed
`TechnicalData` dict, `ai_available`/`ai_analysis` for the OpenAI client
and its narrative, `rule_analysis` for the scorer's output on the fetched
data.

Cache-hit branch: the source immediately executes
`logger.info(f"Using cached analysis for {request.symbol} ...")`, where
`request` is the FastAPI/Starlette `Request` object, which has no
attribute `symbol` (the stock symbol lives on `stock_request`).  The
f-string raises `AttributeError`; the endpoint's final
`except Exception` handler catches it and returns
`AnalysisResponse(success=False, error="Internal server error")`, before
any quota call, mutation or fetch. -/
def analyze_stock (today ts : ℕ) (user_id : ℕ) (current_user : User)
    (symbol analysis_type : String) (st : CacheStore JDict)
    (tech_symbol : String) (tech_data : JDict) (ai_available : Bool)
    (ai_analysis : Json) (rule_analysis : Json) : AnalyzeOutcome :=
  match get_cached_analysis today user_id symbol st with
  | some _cached =>
      ⟨{ success := false, error := some "Internal server error" },
        current_user, st, false, false⟩
  | none =>
      let r1 := check_and_increment_search_count today current_user
      let can_search := r1.1.1
      let message := r1.1.2.1
      let u1 := r1.2
      if can_search = false then
        let r2 := get_user_search_status today u1
        ⟨{ success := false, error := some message, search_limit_info := some r2.1 },
          r2.2, st, true, false⟩
      else
        let full0 : JDict :=
          [("symbol", Json.str tech_symbol),
           ("technical_data", Json.obj tech_data),
           ("analysis_type", Json.str "both")]
        let full1 := if ai_available then full0 ++ [("ai_analysis", ai_analysis)] else full0
        let full := full1 ++ [("rule_analysis", rule_analysis)]
        let st2 := (store_stock_analysis today ts user_id symbol full st).2
        let response_data := filter_analysis_by_type full analysis_type
        let r2 := get_user_search_status today u1
        ⟨{ success := true, data := some response_data, search_limit_info := some r2.1 },
          r2.2, st2, true, true⟩

/-! ## Theorems -/

/-- Same-day behaviour of `check_and_increment_search_count` on an
initialised row. -/
theorem check_same_day (c : ℤ) (d : ℕ) :
    check_and_increment_search_count d ⟨some c, some d⟩ =
      if c ≥ DAILY_LIMIT then ((false, limitMessage, 0), ⟨some c, some d⟩)
      else ((true, successMessage (DAILY_LIMIT - (c + 1)), DAILY_LIMIT - (c + 1)),
              ⟨some (c + 1), some d⟩) := by
  simp [check_and_increment_search_count, initSearchCount, _reset_daily_count_if_needed]

/-- On day `d`, `k ≤ 10` quota calls starting from a fresh row leave the
count at exactly `k`. -/
theorem quotaIter_fresh (d : ℕ) : ∀ k, k ≤ 10 →
    quotaIter d k (freshUser d) = ⟨some (k : ℤ), some d⟩ := by
  intro k hk
  induction k with
  | zero => rfl
  | succ n ih =>
    have hn : n ≤ 10 := Nat.le_of_succ_le hk
    have hlt : (n : ℤ) < DAILY_LIMIT := by
      have : n < 10 := hk
      unfold DAILY_LIMIT
      exact_mod_cast this
    rw [quotaIter, ih hn, quotaStep, check_same_day, if_neg (not_le.mpr hlt)]
    simp

/-- C1: for a single user on a single UTC day, starting from a fresh
record, each of the first 10 `check_and_increment_search_count` calls
returns `allowed = true`; the 11th returns `allowed = false` with
`remaining = 0` and leaves the stored count unchanged at 10; and the first
call of the next UTC day first resets the count to 0
(`_reset_daily_count_if_needed`), then increments it to 1 and returns
`allowed = true`. -/
theorem quota_daily_cycle (d : ℕ) :
    (∀ k, k < 10 →
      ((check_and_increment_search_count d (quotaIter d k (freshUser d))).1).1 = true) ∧
    check_and_increment_search_count d (quotaIter d 10 (freshUser d)) =
      ((false, limitMessage, 0), ⟨some 10, some d⟩) ∧
    (_reset_daily_count_if_needed (d + 1)
        (initSearchCount (quotaIter d 10 (freshUser d)))).daily_search_count = some 0 ∧
    check_and_increment_search_count (d + 1) (quotaIter d 10 (freshUser d)) =
      ((true, successMessage 9, 9), ⟨some 1, some (d + 1)⟩) := by
  have h10 := quotaIter_fresh d 10 le_rfl
  refine ⟨?_, ?_, ?_, ?_⟩
  · intro k hk
    have hlt : (k : ℤ) < DAILY_LIMIT := by
      unfold DAILY_LIMIT
      exact_mod_cast hk
    rw [quotaIter_fresh d k (le_of_lt hk), check_same_day, if_neg (not_le.mpr hlt)]
  · rw [h10, check_same_day, if_pos (by norm_num [DAILY_LIMIT])]
    norm_num
  · rw [h10]
    simp [initSearchCount, _reset_daily_count_if_needed]
  · rw [h10]
    simp [check_and_increment_search_count, initSearchCount,
      _reset_daily_count_if_needed, DAILY_LIMIT]

/-- Witness for C1 at `d = 0`: the 4th call of the day (index `k = 3`) is
allowed. -/
theorem quota_daily_cycle_witness :
    ((check_and_increment_search_count 0 (quotaIter 0 3 (freshUser 0))).1).1 = true :=
  (quota_daily_cycle 0).1 3 (by decide)

/-- The QuotaRecord invariant: the stored count, when initialised, lies in
`[0, DAILY_LIMIT]`. -/
def QuotaInv (u : User) : Prop :=
  ∀ c, u.daily_search_count = some c → 0 ≤ c ∧ c ≤ DAILY_LIMIT

/-- Lazy initialisation preserves the invariant. -/
theorem quotaInv_init (u : User) (h : QuotaInv u) : QuotaInv (initSearchCount u) := by
  unfold initSearchCount
  split
  · intro c hc
    simp only at hc
    cases hc
    constructor <;> norm_num [DAILY_LIMIT]
  · exact h

/-- The daily reset preserves the invariant. -/
theorem quotaInv_reset (today : ℕ) (u : User) (h : QuotaInv u) :
    QuotaInv (_reset_daily_count_if_needed today u) := by
  unfold _reset_daily_count_if_needed
  dsimp only
  split
  · intro c hc
    simp only at hc
    cases hc
    constructor <;> norm_num [DAILY_LIMIT]
  · exact h

/-- After lazy initialisation the count is always set. -/
theorem initSearchCount_isSome (u : User) :
    ∃ c, (initSearchCount u).daily_search_count = some c := by
  unfold initSearchCount
  rcases h : u.daily_search_count with _ | c
  · simp [h]
  · simp [h]

/-- The daily reset keeps the count set. -/
theorem reset_isSome (today : ℕ) (u : User) (c : ℤ)
    (hc : u.daily_search_count = some c) :
    ∃ c2, (_reset_daily_count_if_needed today u).daily_search_count = some c2 := by
  unfold _reset_daily_count_if_needed
  dsimp only
  split
  · exact ⟨0, rfl⟩
  · exact ⟨c, hc⟩

/-- The user row produced by `check_and_increment_search_count`, in terms
of the post-reset row. -/
theorem check_state_eq (today : ℕ) (u : User) :
    (check_and_increment_search_count today u).2 =
      (if (_reset_daily_count_if_needed today (initSearchCount u)).daily_search_count.getD 0 ≥
            DAILY_LIMIT
       then _reset_daily_count_if_needed today (initSearchCount u)
       else { _reset_daily_count_if_needed today (initSearchCount u) with
              daily_search_count :=
                some ((_reset_daily_count_if_needed today
                         (initSearchCount u)).daily_search_count.getD 0 + 1) }) := by
  unfold check_and_increment_search_count
  rw [apply_ite Prod.snd]

/-- The user row produced by `get_user_search_status` is exactly the
post-reset row. -/
theorem status_state_eq (today : ℕ) (u : User) :
    (get_user_search_status today u).2 =
      _reset_daily_count_if_needed today (initSearchCount u) := rfl

/-- C7: each quota operation preserves `0 ≤ count ≤ DAILY_LIMIT`, and
`check_and_increment_search_count` never increments a count that is already
at the limit (when the post-reset count equals the limit, the row is
returned unchanged). -/
theorem quota_ops_preserve_invariant (today : ℕ) (u : User) (h : QuotaInv u) :
    QuotaInv (check_and_increment_search_count today u).2 ∧
    QuotaInv (get_user_search_status today u).2 ∧
    QuotaInv (reset_user_search_count today u).2 ∧
    ((_reset_daily_count_if_needed today (initSearchCount u)).daily_search_count =
        some DAILY_LIMIT →
      (check_and_increment_search_count today u).2 =
        _reset_daily_count_if_needed today (initSearchCount u)) := by
  have hreset := quotaInv_reset today _ (quotaInv_init u h)
  obtain ⟨c0, hc0⟩ := initSearchCount_isSome u
  obtain ⟨c2, hc2⟩ := reset_isSome today _ c0 hc0
  obtain ⟨hc2lo, hc2hi⟩ := hreset c2 hc2
  refine ⟨?_, ?_, ?_, ?_⟩
  · rw [check_state_eq, hc2]
    simp only [Option.getD_some]
    split
    · exact hreset
    · rename_i hlt
      intro c hcc
      simp only at hcc
      cases hcc
      have : ¬ (DAILY_LIMIT ≤ c2) := hlt
      unfold DAILY_LIMIT at *
      omega
  · rw [status_state_eq]
    exact hreset
  · intro c hc
    simp only [reset_user_search_count] at hc
    cases hc
    constructor <;> norm_num [DAILY_LIMIT]
  · intro hl
    rw [check_state_eq, hl]
    simp

/-- Witness for C7: a row at 5/10 on day 0 keeps the invariant through a
quota call, and the at-limit clause fires on a row at 10/10. -/
theorem quota_ops_preserve_invariant_witness :
    QuotaInv (⟨some 5, some 0⟩ : User) ∧
    QuotaInv (check_and_increment_search_count 0 ⟨some 5, some 0⟩).2 := by
  have hinv : QuotaInv (⟨some 5, some 0⟩ : User) := by
    intro c hc
    simp only at hc
    cases hc
    constructor <;> norm_num [DAILY_LIMIT]
  exact ⟨hinv, (quota_ops_preserve_invariant 0 ⟨some 5, some 0⟩ hinv).1⟩

/-- Redis `GET` after `SETEX`: the freshly written key reads back, any
other key is unaffected. -/
theorem kvGet_set [DecidableEq κ] (k k2 : κ) (v : α) (m : List (κ × α)) :
    kvGet k2 (kvSet k v m) = if k2 = k then some v else kvGet k2 m := by
  unfold kvGet kvSet
  by_cases h : k2 = k
  · subst h
    simp [List.find?_cons]
  · have hd : (decide ((k, v).1 = k2)) = false := by
      simp only [decide_eq_false_iff_not]
      exact fun hk => h hk.symm
    rw [if_neg h, List.find?_cons, hd]

/-- The function `store_stock_analysis` always writes the payload under today's stock
key, whichever branch the daily list takes. -/
theorem store_stock_eq (today ts user_id : ℕ) (symbol : String) (data : α)
    (st : CacheStore α) :
    (store_stock_analysis today ts user_id symbol data st).2.stock =
      kvSet (_get_stock_cache_key user_id symbol today) data st.stock := by
  unfold store_stock_analysis
  dsimp only
  split <;> rfl

/-- The function `get_todays_searches` only reads the list namespace of Redis. -/
theorem get_todays_searches_stock_irrel (today user_id : ℕ) (st : CacheStore α)
    (x : List (StockKey × α)) :
    get_todays_searches today user_id { st with stock := x } =
      get_todays_searches today user_id st := rfl

/-- The daily list written by `store_stock_analysis`: untouched when the
symbol is already listed, otherwise today's list gains exactly the new
entry at the end. -/
theorem store_lists_eq (today ts user_id : ℕ) (symbol : String) (data : α)
    (st : CacheStore α) :
    (store_stock_analysis today ts user_id symbol data st).2.lists =
      (if (get_todays_searches today user_id st).any
            (fun s => decide (s.symbol = symbol.toUpper))
       then st.lists
       else kvSet (_get_user_cache_key user_id today)
              (get_todays_searches today user_id st ++
                [⟨symbol.toUpper, ts, _get_stock_cache_key user_id symbol today⟩])
              st.lists) := by
  unfold store_stock_analysis
  dsimp only
  rw [get_todays_searches_stock_irrel]
  split <;> rfl

/-- C4: a `store_stock_analysis` followed by `get_cached_analysis` for the
same user and symbol on the same UTC day returns exactly the stored
payload; once the UTC day has rolled over, the lookup (which recomputes the
key with the new date) is a miss. -/
theorem cache_store_get_roundtrip {α : Type} (today d2 ts user_id : ℕ)
    (symbol : String) (data : α) (st : CacheStore α)
    (hne : today ≠ d2)
    (hmiss : get_cached_analysis d2 user_id symbol st = none) :
    get_cached_analysis today user_id symbol
        (store_stock_analysis today ts user_id symbol data st).2 = some data ∧
    get_cached_analysis d2 user_id symbol
        (store_stock_analysis today ts user_id symbol data st).2 = none := by
  constructor
  · unfold get_cached_analysis
    rw [store_stock_eq, kvGet_set, if_pos rfl]
  · unfold get_cached_analysis at hmiss ⊢
    rw [store_stock_eq, kvGet_set, if_neg, hmiss]
    simp only [_get_stock_cache_key, StockKey.mk.injEq, not_and]
    intro _ _
    exact fun hd => hne hd.symm

/-- Witness for C4 (`user 1`, symbol `"aapl"`, empty cache, day 0 store,
day 1 lookup). -/
theorem cache_store_get_roundtrip_witness :
    (0 : ℕ) ≠ 1 ∧
    get_cached_analysis 1 1 "aapl" (emptyCache (α := ℕ)) = none ∧
    (get_cached_analysis 0 1 "aapl"
        (store_stock_analysis 0 0 1 "aapl" (37 : ℕ) emptyCache).2 = some 37 ∧
     get_cached_analysis 1 1 "aapl"
        (store_stock_analysis 0 0 1 "aapl" (37 : ℕ) emptyCache).2 = none) :=
  ⟨by decide, rfl, cache_store_get_roundtrip 0 1 0 1 "aapl" 37 emptyCache (by decide) rfl⟩

/-- C9: a user's daily search list never gains a duplicate symbol.  When
the (uppercased) symbol is already listed today, `store_stock_analysis`
leaves the whole list namespace unchanged (the first entry keeps its slot
and timestamp); when it is new, exactly one entry is appended; and
pairwise-distinctness of the listed symbols is preserved. -/
theorem daily_list_unique (today ts user_id : ℕ) (symbol : String) (data : α)
    (st : CacheStore α) :
    ((∃ e ∈ get_todays_searches today user_id st, e.symbol = symbol.toUpper) →
      (store_stock_analysis today ts user_id symbol data st).2.lists = st.lists) ∧
    ((¬ ∃ e ∈ get_todays_searches today user_id st, e.symbol = symbol.toUpper) →
      get_todays_searches today user_id
          (store_stock_analysis today ts user_id symbol data st).2 =
        get_todays_searches today user_id st ++
          [⟨symbol.toUpper, ts, _get_stock_cache_key user_id symbol today⟩]) ∧
    ((get_todays_searches today user_id st).Pairwise (fun a b => a.symbol ≠ b.symbol) →
      (get_todays_searches today user_id
          (store_stock_analysis today ts user_id symbol data st).2).Pairwise
        (fun a b => a.symbol ≠ b.symbol)) := by
  have hany : ((get_todays_searches today user_id st).any
        (fun s => decide (s.symbol = symbol.toUpper)) = true) ↔
      (∃ e ∈ get_todays_searches today user_id st, e.symbol = symbol.toUpper) := by
    simp [List.any_eq_true]
  refine ⟨?_, ?_, ?_⟩
  · intro hex
    rw [store_lists_eq, if_pos (hany.mpr hex)]
  · intro hex
    unfold get_todays_searches
    rw [show (store_stock_analysis today ts user_id symbol data st).2.lists =
          kvSet (_get_user_cache_key user_id today)
            (get_todays_searches today user_id st ++
              [⟨symbol.toUpper, ts, _get_stock_cache_key user_id symbol today⟩])
            st.lists from by
        rw [store_lists_eq, if_neg]
        rw [hany]
        exact hex]
    rw [kvGet_set, if_pos rfl]
    rfl
  · intro hpw
    by_cases hex : ∃ e ∈ get_todays_searches today user_id st, e.symbol = symbol.toUpper
    · have h1 : (store_stock_analysis today ts user_id symbol data st).2.lists = st.lists := by
        rw [store_lists_eq, if_pos (hany.mpr hex)]
      unfold get_todays_searches
      rw [h1]
      exact hpw
    · have h2 : get_todays_searches today user_id
          (store_stock_analysis today ts user_id symbol data st).2 =
            get_todays_searches today user_id st ++
              [⟨symbol.toUpper, ts, _get_stock_cache_key user_id symbol today⟩] := by
        unfold get_todays_searches
        rw [store_lists_eq, if_neg (by rw [hany]; exact hex), kvGet_set, if_pos rfl]
        rfl
      rw [h2, List.pairwise_append]
      refine ⟨hpw, List.pairwise_singleton _ _, ?_⟩
      intro a ha b hb
      simp only [List.mem_singleton] at hb
      subst hb
      intro hab
      exact hex ⟨a, ha, hab⟩

/-- Witness for C9 on an empty cache: storing symbol `"tsla"` appends one
entry, and distinctness is preserved. -/
theorem daily_list_unique_witness :
    (¬ ∃ e ∈ get_todays_searches 0 1 (emptyCache (α := ℕ)), e.symbol = "tsla".toUpper) ∧
    get_todays_searches 0 1 (store_stock_analysis 0 5 1 "tsla" (3 : ℕ) emptyCache).2 =
      get_todays_searches 0 1 (emptyCache (α := ℕ)) ++
        [⟨"tsla".toUpper, 5, _get_stock_cache_key 1 "tsla" 0⟩] := by
  have h : ¬ ∃ e ∈ get_todays_searches 0 1 (emptyCache (α := ℕ)),
      e.symbol = "tsla".toUpper := by
    simp [get_todays_searches, emptyCache, kvGet]
  exact ⟨h, (daily_list_unique 0 5 1 "tsla" 3 emptyCache).2.1 h⟩

/-- Consecutive differences of a strictly increasing series are positive. -/
theorem npDiff_pos (l : List ℚ) (h : l.Chain' (· < ·)) :
    ∀ d ∈ npDiff l, 0 < d := by
  induction l with
  | nil => intro d hd; simp [npDiff] at hd
  | cons a t ih =>
    cases t with
    | nil => intro d hd; simp [npDiff] at hd
    | cons b t2 =>
      rw [List.chain'_cons] at h
      intro d hd
      rw [npDiff] at hd
      rcases List.mem_cons.mp hd with h1 | h2
      · subst h1
        linarith [h.1]
      · exact ih h.2 d h2

/-- For a strictly increasing series every entry of `losses` is zero. -/
theorem rsiLosses_eq_zero (l : List ℚ) (h : l.Chain' (· < ·)) :
    ∀ x ∈ rsiLosses l, x = 0 := by
  intro x hx
  rcases List.mem_map.mp hx with ⟨d, hd, hdx⟩
  have hpos := npDiff_pos l h d hd
  rw [← hdx, if_neg (by linarith)]

/-- Wilder's smoothing of an all-zero tail from a zero seed stays zero. -/
theorem wilderAvg_zero (period : ℕ) (xs : List ℚ) (h : ∀ x ∈ xs, x = 0) :
    wilderAvg period 0 xs = 0 := by
  induction xs with
  | nil => rfl
  | cons a t ih =>
    unfold wilderAvg at ih ⊢
    rw [List.foldl_cons, h a (List.mem_cons_self a t), mul_comm]
    simp only [mul_zero, zero_mul, zero_add, add_zero, zero_div]
    exact ih fun x hx => h x (List.mem_cons_of_mem a hx)

/-- C8: on a strictly increasing price series of length at least
`period + 1` (with a positive period), the smoothed average loss is zero
and `calculate_rsi` returns exactly 100. -/
theorem rsi_strictly_increasing_100 (prices : List ℚ) (period : ℕ)
    (_hper : 0 < period) (hlen : period + 1 ≤ prices.length)
    (hinc : prices.Chain' (· < ·)) :
    rsiAvgLoss prices period = 0 ∧ calculate_rsi prices period = 100 := by
  have hzero := rsiLosses_eq_zero prices hinc
  have havg : rsiAvgLoss prices period = 0 := by
    unfold rsiAvgLoss
    have hseed : npMean ((rsiLosses prices).take period) = 0 := by
      unfold npMean
      rw [List.sum_eq_zero fun x hx => hzero x (List.mem_of_mem_take hx)]
      simp
    rw [hseed]
    exact wilderAvg_zero period _ fun x hx => hzero x (List.mem_of_mem_drop hx)
  refine ⟨havg, ?_⟩
  unfold calculate_rsi
  rw [if_neg (by omega), if_pos havg]

/-- Witness for C8 at `prices = [1, 2, 3]`, `period = 2`. -/
theorem rsi_strictly_increasing_100_witness :
    (0 < 2 ∧ 2 + 1 ≤ ([1, 2, 3] : List ℚ).length ∧
      ([1, 2, 3] : List ℚ).Chain' (· < ·)) ∧
    (rsiAvgLoss [1, 2, 3] 2 = 0 ∧ calculate_rsi [1, 2, 3] 2 = 100) :=
  ⟨⟨by decide, by decide, by norm_num [List.chain'_cons]⟩,
    rsi_strictly_increasing_100 [1, 2, 3] 2 (by decide) (by decide)
      (by norm_num [List.chain'_cons])⟩

/-- C10: `filter_analysis_by_type` always carries `technical_data` through
(for every requested type, `"ai"` included), while `ai_analysis` survives
exactly for requested types `"ai"`/`"both"` and `rule_analysis` exactly
for `"technical"`/`"both"`. -/
theorem filter_keeps_technical_data (ad : JDict) (t : String) :
    dictLookup "technical_data" (filter_analysis_by_type ad t) =
      dictLookup "technical_data" ad ∧
    dictLookup "ai_analysis" (filter_analysis_by_type ad t) =
      (if t = "ai" ∨ t = "both" then dictLookup "ai_analysis" ad else none) ∧
    dictLookup "rule_analysis" (filter_analysis_by_type ad t) =
      (if t = "technical" ∨ t = "both" then dictLookup "rule_analysis" ad else none) := by
  unfold filter_analysis_by_type
  dsimp only
  refine ⟨?_, ?_, ?_⟩ <;>
    cases htd : dictLookup "technical_data" ad <;>
    by_cases hai : t = "ai" ∨ t = "both" <;>
    by_cases hru : t = "technical" ∨ t = "both" <;>
    cases hav : dictLookup "ai_analysis" ad <;>
    cases hrv : dictLookup "rule_analysis" ad <;>
    simp [dictLookup, hai, hru, List.find?]

/-- Tech data whose volume ratio is 2/5 (< 0.5), with a neutral RSI,
bullish MACD and bullish moving averages, and no momentum. -/
def tdLowVolume : TechnicalData :=
  ⟨"TEST", 50, 1, 0, 10, 5, 1, 2/5, 0, 0⟩

/-- Tech data with volume ratio 2 (> 1.5), otherwise like `tdLowVolume`. -/
def tdHighVolume : TechnicalData :=
  ⟨"TEST", 50, 1, 0, 10, 5, 1, 2, 0, 0⟩

/-- Counterexample to C2 as stated: with `volume_ratio = 2/5 < 0.5` the
volume section *does* increment `total_signals` (from 3 to 4), with
`volume_ratio = 2 > 1.5` and buy and sell tied at 1 it also increments
`total_signals`, and on a full scorer run over `tdLowVolume` the final
`total_signals` is 4 (RSI, MACD, moving averages, and the voteless
low-volume branch), not the 3 the claim predicts. -/
theorem volume_counts_counterexample :
    (volumeStep tdLowVolume ⟨2, 0, 3, []⟩).total_signals ≠ (3 : ℚ) ∧
    (volumeStep tdHighVolume ⟨1, 1, 3, []⟩).total_signals ≠ (3 : ℚ) ∧
    (rule_score tdLowVolume).total_signals = 4 := by
  refine ⟨?_, ?_, ?_⟩
  · norm_num [volumeStep, tdLowVolume]
  · norm_num [volumeStep, tdHighVolume]
  · norm_num [rule_score, rsiStep, macdStep, maStep, volumeStep, momentum1Step,
      momentum5Step, initScore, tdLowVolume]

/-- C2 amended: the volume section increments `total_signals` exactly when
`volume_ratio > 1.5` or `volume_ratio < 0.5` — including the voteless tied
high-volume and low-volume branches — and casts a ±0.5 vote only for the
side strictly leading under high volume. -/
theorem volume_counts_amended (td : TechnicalData) (s : ScoreState) :
    (volumeStep td s).total_signals =
      (if td.volume_ratio > 1.5 ∨ td.volume_ratio < 0.5 then s.total_signals + 1
       else s.total_signals) ∧
    (volumeStep td s).buy_signals =
      (if td.volume_ratio > 1.5 ∧ s.buy_signals > s.sell_signals then s.buy_signals + 0.5
       else s.buy_signals) ∧
    (volumeStep td s).sell_signals =
      (if td.volume_ratio > 1.5 ∧ s.sell_signals > s.buy_signals then s.sell_signals + 0.5
       else s.sell_signals) := by
  by_cases hv1 : td.volume_ratio > 1.5 <;>
    by_cases hv2 : td.volume_ratio < 0.5 <;>
    by_cases hb : s.buy_signals > s.sell_signals <;>
    by_cases hs : s.sell_signals > s.buy_signals <;>
    simp [volumeStep, hv1, hv2, hb, hs] <;>
    linarith

/-- The Python append-loop building `macd_values`, as a map over the index
range. -/
theorem macd_fold_eq_map (g : ℕ → ℚ) (slow : ℕ) (l : List ℕ) :
    ∀ acc : List ℚ,
      l.foldl (fun acc i => if slow - 1 ≤ i then acc ++ [g i] else acc ++ [0]) acc =
        acc ++ l.map (fun i => if slow - 1 ≤ i then g i else 0) := by
  induction l with
  | nil => intro acc; simp
  | cons a t ih =>
    intro acc
    rw [List.foldl_cons, List.map_cons]
    by_cases h : slow - 1 ≤ a
    · rw [if_pos h, if_pos h, ih]
      simp
    · rw [if_neg h, if_neg h, ih]
      simp

/-- Counterexample to C3 as stated: on `closes = [0,1,2,3,4]` with
`fast = 1`, `slow = 3`, `signal = 2` (so `len = slow + signal`), the code's
signal line is `26/27`, while the claim's description — EMA of the MACD
recomputed at *every* prefix index, without the zero padding the code puts
at indices `< slow - 1` — yields `35/36`. -/
theorem macd_signal_spec_counterexample :
    (calculate_macd [0, 1, 2, 3, 4] 1 3 2).2 = 26 / 27 ∧
    macdSignalPerSpec [0, 1, 2, 3, 4] 1 3 2 = 35 / 36 ∧
    (26 / 27 : ℚ) ≠ 35 / 36 := by
  refine ⟨?_, ?_, by norm_num⟩
  · norm_num [calculate_macd, calculate_ema, npMean, List.range_succ]
  · norm_num [macdSignalPerSpec, calculate_ema, npMean, List.range_succ]

/-- C3 amended: for `len(closes) ≥ slow + signal`, the MACD line is
`EMA(closes, fast) - EMA(closes, slow)` and the signal line is the
`signal`-period EMA of the sequence whose element at index `i` is the
prefix-recomputed MACD `EMA(closes[0..i], fast) - EMA(closes[0..i], slow)`
for `i ≥ slow - 1` and `0` for the earlier indices; for shorter input the
result is `(0, 0)`. -/
theorem macd_structure (prices : List ℚ) (fast slow signal : ℕ) :
    (slow + signal ≤ prices.length →
      calculate_macd prices fast slow signal =
        (calculate_ema prices fast - calculate_ema prices slow,
         calculate_ema
           ((List.range prices.length).map fun i =>
             if i + 1 < slow then 0
             else calculate_ema (prices.take (i + 1)) fast -
                    calculate_ema (prices.take (i + 1)) slow)
           signal)) ∧
    (prices.length < slow + signal →
      calculate_macd prices fast slow signal = (0, 0)) := by
  constructor
  · intro h
    unfold calculate_macd
    rw [if_neg (by omega)]
    dsimp only
    rw [macd_fold_eq_map
      (fun i => calculate_ema (prices.take (i + 1)) fast -
                  calculate_ema (prices.take (i + 1)) slow) slow]
    rw [List.nil_append]
    refine congrArg (Prod.mk _) (congrArg (fun l => calculate_ema l signal) ?_)
    refine List.map_congr_left fun i _ => ?_
    by_cases hi : slow - 1 ≤ i
    · rw [if_pos hi, if_neg (by omega)]
    · rw [if_neg hi, if_pos (by omega)]
  · intro h
    unfold calculate_macd
    rw [if_pos h]

/-- Witness for the amended C3 on the counterexample input (the long-input
branch applies at length 5 = 3 + 2). -/
theorem macd_structure_witness :
    3 + 2 ≤ ([0, 1, 2, 3, 4] : List ℚ).length ∧
    calculate_macd [0, 1, 2, 3, 4] 1 3 2 =
      (calculate_ema [0, 1, 2, 3, 4] 1 - calculate_ema [0, 1, 2, 3, 4] 3,
       calculate_ema
         ((List.range ([0, 1, 2, 3, 4] : List ℚ).length).map fun i =>
           if i + 1 < 3 then 0
           else calculate_ema (([0, 1, 2, 3, 4] : List ℚ).take (i + 1)) 1 -
                  calculate_ema (([0, 1, 2, 3, 4] : List ℚ).take (i + 1)) 3)
         2) :=
  ⟨by decide, (macd_structure [0, 1, 2, 3, 4] 1 3 2).1 (by decide)⟩

/-- Evaluation of `get_user_search_status` on an initialised same-day row. -/
theorem status_same_day (c : ℤ) (d : ℕ) :
    get_user_search_status d ⟨some c, some d⟩ =
      ({ daily_limit := DAILY_LIMIT
         used_today := c
         remaining_today := max 0 (DAILY_LIMIT - c)
         can_search := decide (max 0 (DAILY_LIMIT - c) > 0)
         last_reset := some d }, ⟨some c, some d⟩) := by
  simp [get_user_search_status, initSearchCount, _reset_daily_count_if_needed]

/-- C6: in every `analyze_stock` execution where the cache misses and the
daily limit is exhausted, the response is a failure carrying the
human-readable quota message, `check_and_increment_search_count` reported
`remaining = 0`, the attached status shows `remaining_today = 0`, and the
market-data fetch / indicator computation is never invoked. -/
theorem quota_exceeded_no_fetch (today ts user_id : ℕ) (u : User) (c : ℤ)
    (symbol analysis_type tech_symbol : String) (st : CacheStore JDict)
    (tech_data : JDict) (ai_available : Bool) (ai_analysis rule_analysis : Json)
    (hmiss : get_cached_analysis today user_id symbol st = none)
    (hcount : u.daily_search_count = some c)
    (hlast : u.last_search_reset = some today)
    (hc : DAILY_LIMIT ≤ c) :
    (analyze_stock today ts user_id u symbol analysis_type st tech_symbol
        tech_data ai_available ai_analysis rule_analysis).resp.success = false ∧
    (analyze_stock today ts user_id u symbol analysis_type st tech_symbol
        tech_data ai_available ai_analysis rule_analysis).resp.error =
      some limitMessage ∧
    ((check_and_increment_search_count today u).1).2.2 = 0 ∧
    (∃ status, (analyze_stock today ts user_id u symbol analysis_type st tech_symbol
        tech_data ai_available ai_analysis rule_analysis).resp.search_limit_info =
          some status ∧ status.remaining_today = 0) ∧
    (analyze_stock today ts user_id u symbol analysis_type st tech_symbol
        tech_data ai_available ai_analysis rule_analysis).fetchInvoked = false := by
  obtain ⟨cnt, lst⟩ := u
  simp only at hcount hlast
  cases hcount
  cases hlast
  have hcheck : check_and_increment_search_count today ⟨some c, some today⟩ =
      ((false, limitMessage, 0), ⟨some c, some today⟩) := by
    rw [check_same_day, if_pos hc]
  have hrem : max 0 (DAILY_LIMIT - c) = 0 := by
    unfold DAILY_LIMIT at hc ⊢
    omega
  unfold analyze_stock
  rw [hmiss]
  dsimp only
  rw [hcheck]
  dsimp only
  rw [status_same_day]
  dsimp only
  exact ⟨rfl, rfl, rfl, ⟨_, rfl, hrem⟩, rfl⟩

/-- Witness for C6: user 7 at 10/10 on day 0, empty cache. -/
theorem quota_exceeded_no_fetch_witness :
    get_cached_analysis 0 7 "TSLA" (emptyCache (α := JDict)) = none ∧
    (analyze_stock 0 0 7 ⟨some 10, some 0⟩ "TSLA" "both" emptyCache "TSLA" []
        false (Json.str "") (Json.str "")).resp.success = false ∧
    (analyze_stock 0 0 7 ⟨some 10, some 0⟩ "TSLA" "both" emptyCache "TSLA" []
        false (Json.str "") (Json.str "")).fetchInvoked = false := by
  have h := quota_exceeded_no_fetch 0 0 7 ⟨some 10, some 0⟩ 10 "TSLA" "both" "TSLA"
    emptyCache [] false (Json.str "") (Json.str "") rfl rfl rfl (by norm_num [DAILY_LIMIT])
  exact ⟨rfl, h.1, h.2.2.2.2⟩

/-- The cached payload of the C5 scenario. -/
def demoPayload : JDict := [("symbol", Json.str "AAPL"), ("technical_data", Json.obj [])]

/-- Redis after user 1 stored an analysis of `"AAPL"` on day 0. -/
def demoCache : CacheStore JDict := (store_stock_analysis 0 0 1 "AAPL" demoPayload emptyCache).2

/-- C5 evaluated on the failing input: user 1 at 10/10 requests `"AAPL"`,
which *is* cached for today, yet `analyze_stock` returns
`success = False, error = "Internal server error"` — the cache-hit branch
dies on the `AttributeError` from `request.symbol` — while the quota is
indeed never touched (the user row is returned unchanged and
`check_and_increment_search_count` never runs). -/
theorem cache_hit_internal_error :
    get_cached_analysis 0 1 "AAPL" demoCache = some demoPayload ∧
    (analyze_stock 0 0 1 ⟨some 10, some 0⟩ "AAPL" "both" demoCache "AAPL" []
        false (Json.str "") (Json.str "")).resp.success = false ∧
    (analyze_stock 0 0 1 ⟨some 10, some 0⟩ "AAPL" "both" demoCache "AAPL" []
        false (Json.str "") (Json.str "")).resp.error = some "Internal server error" ∧
    (analyze_stock 0 0 1 ⟨some 10, some 0⟩ "AAPL" "both" demoCache "AAPL" []
        false (Json.str "") (Json.str "")).resp.data = none ∧
    (analyze_stock 0 0 1 ⟨some 10, some 0⟩ "AAPL" "both" demoCache "AAPL" []
        false (Json.str "") (Json.str "")).user = ⟨some 10, some 0⟩ ∧
    (analyze_stock 0 0 1 ⟨some 10, some 0⟩ "AAPL" "both" demoCache "AAPL" []
        false (Json.str "") (Json.str "")).quotaInvoked = false := by
  have hhit : get_cached_analysis 0 1 "AAPL" demoCache = some demoPayload := by
    unfold demoCache get_cached_analysis
    rw [store_stock_eq, kvGet_set, if_pos rfl]
  refine ⟨hhit, ?_, ?_, ?_, ?_, ?_⟩ <;>
    · unfold analyze_stock
      rw [hhit]
